import Mathlib

/-!
Verification development for the netdata TeamSpeak 3 query-client plugin
(`ts3.chart.py`).  The Python source is shallowly embedded: text is
modelled as `List Char` (the plugin decodes every received byte buffer as
text before using it), the query-protocol session methods `_send`,
`_receive`, `_disconnect` and `_connect` are modelled as a fuel-indexed
interpreter over an explicit transport oracle, and the pure parsing code
(`_check_raw_data`, `_get_data`, `check`) is modelled as pure functions.
-/

set_option maxRecDepth 8000

namespace TS3

/-! ## Text utilities (Python `str` operations over `List Char`) -/

/-- Python `s.endswith(pat)`: `pat` is a trailing segment of `s`. -/
def listEndsWith (pat s : List Char) : Bool :=
  pat == s.drop (s.length - pat.length)

/-- Python `s.startswith(pat)` (used to model substring search). -/
def listStartsWith (pat s : List Char) : Bool :=
  pat == s.take pat.length

/-- Python `pat in s` (substring containment, used by `check` on
`/proc/<pid>/cmdline` contents). -/
def listHasSeq (pat : List Char) : List Char → Bool
  | [] => pat == []
  | c :: rest => listStartsWith pat (c :: rest) || listHasSeq pat rest

/-- Python `s.split(sep)` for a single-character separator: consecutive
separators produce empty fields, and the empty string splits to `[""]`. -/
def splitChar (sep : Char) : List Char → List (List Char)
  | [] => [[]]
  | c :: rest =>
    if c = sep then [] :: splitChar sep rest
    else
      match splitChar sep rest with
      | t :: ts => (c :: t) :: ts
      | [] => [[c]]

/-- The text before the first occurrence of the separator sequence `sep`;
models `raw.split(sep)[0]` (only element 0 of that split is ever used by
the source, in `_get_data`). -/
def takeBeforeSeq (sep : List Char) : List Char → List Char
  | [] => []
  | c :: rest =>
    if listStartsWith sep (c :: rest) then []
    else c :: takeBeforeSeq sep rest

/-! ## Framing layer: `_check_raw_data` (source lines 333–338) -/

/-- First terminator recognized by `_check_raw_data`: the source string
literal `"msg=ok\n\r"` — line feed then carriage return. -/
def okTerminator : List Char := "msg=ok\n\r".toList

/-- Second terminator recognized by `_check_raw_data`: the source string
literal `"msg=invalid\\schannelID\n\r"` (a literal backslash-s), again
followed by line feed then carriage return. -/
def invalidChannelTerminator : List Char := "msg=invalid\\schannelID\n\r".toList

/-- `_check_raw_data(data)`: true exactly when the accumulated text ends
with one of the two terminator strings. -/
def check_raw_data (data : List Char) : Bool :=
  listEndsWith okTerminator data || listEndsWith invalidChannelTerminator data

/-- Terminator as the specification words it for the claim under test:
`msg=ok` followed by carriage return then line feed. -/
def okTerminatorClaimed : List Char := "msg=ok\r\n".toList

/-- Second terminator as the specification words it: carriage return then
line feed. -/
def invalidChannelTerminatorClaimed : List Char := "msg=invalid\\schannelID\r\n".toList

/-- The terminator check as the specification claims it (CR before LF);
kept separate so it can be compared against the source's
`check_raw_data`. -/
def check_raw_data_claimed (data : List Char) : Bool :=
  listEndsWith okTerminatorClaimed data || listEndsWith invalidChannelTerminatorClaimed data

/-! ## Metrics extractor: `_get_data` (source lines 287–331) -/

/-- Accumulate a decimal digit string, `digitsToNat "42" = 42`. -/
def digitsToNat (s : List Char) : Nat :=
  s.foldl (fun acc c => acc * 10 + (c.toNat - 48)) 0

/-- All characters are ASCII decimal digits. -/
def allDigits (s : List Char) : Bool := s.all Char.isDigit

/-- A non-empty all-digit string, as required by Python `int`. -/
def parseDigits (s : List Char) : Option Nat :=
  if s ≠ [] ∧ allDigits s = true then some (digitsToNat s) else none

/-- Python `int(s)` on the token values fed to it by `_get_data`:
an optional sign followed by decimal digits; anything else raises
`ValueError`, modelled as `none`. -/
def parseInt (s : List Char) : Option Int :=
  match s with
  | '-' :: rest => (parseDigits rest).map (fun n => -(n : Int))
  | '+' :: rest => (parseDigits rest).map (fun n => (n : Int))
  | _ => (parseDigits s).map (fun n => (n : Int))

/-- Unsigned part of Python `float(s)` for the plain decimal notation the
server sends (`"0"`, `"0.05"`, `"1."`, `".5"`); the value is exact, as a
rational: `a.b` is `(a·10^k + b) / 10^k` for `k` fractional digits.  A
failing parse raises `ValueError`, modelled as `none`. -/
def parseUnsignedFloat (s : List Char) : Option Rat :=
  match splitChar '.' s with
  | [a] =>
    if a ≠ [] ∧ allDigits a = true then some (mkRat (digitsToNat a) 1) else none
  | [a, b] =>
    if (a ≠ [] ∨ b ≠ []) ∧ allDigits a = true ∧ allDigits b = true then
      some (mkRat (digitsToNat a * 10 ^ b.length + digitsToNat b) (10 ^ b.length))
    else none
  | _ => none

/-- Python `float(s)` with an optional sign, exact rational semantics.
(At every value the claims touch, IEEE double arithmetic and exact
rational arithmetic agree.) -/
def parsePyFloat (s : List Char) : Option Rat :=
  match s with
  | '-' :: rest => (parseUnsignedFloat rest).map (fun q => -q)
  | '+' :: rest => parseUnsignedFloat rest
  | _ => parseUnsignedFloat s

/-- One token of the status line: `x.split("=", 1) if "=" in x else (x, "")`. -/
def tokPair (x : List Char) : List Char × List Char :=
  if x.contains '=' then
    (x.takeWhile (fun c => c ≠ '='), (x.dropWhile (fun c => c ≠ '=')).drop 1)
  else (x, [])

/-- Lookup in the `dict(...)` built from the token pairs: as in a Python
dict comprehension, a later duplicate key overwrites an earlier one. -/
def dlookup : List (List Char × List Char) → List Char → Option (List Char)
  | [], _ => none
  | kv :: rest, key =>
    match dlookup rest key with
    | some v => some v
    | none => if kv.1 == key then some kv.2 else none

/-- The separator `"\n\r"` used by `raw.split("\n\r")[0]`. -/
def newlineCR : List Char := "\n\r".toList

/-- The key/value pairs of the first data line:
`(x.split("=", 1) if "=" in x else (x, "") for x in raw.split("\n\r")[0].split(" "))`. -/
def fieldsOf (raw : List Char) : List (List Char × List Char) :=
  (splitChar ' ' (takeBeforeSeq newlineCR raw)).map tokPair

def keyClientsOnline : List Char := "virtualserver_clientsonline".toList
def keyQueryClientsOnline : List Char := "virtualserver_queryclientsonline".toList
def keyTotalPing : List Char := "virtualserver_total_ping".toList
def keyBwSentTotal : List Char := "connection_bandwidth_sent_last_second_total".toList
def keyBwRecvTotal : List Char := "connection_bandwidth_received_last_second_total".toList
def keyFtSent : List Char := "connection_filetransfer_bandwidth_sent".toList
def keyFtRecv : List Char := "connection_filetransfer_bandwidth_received".toList
def keyPlSpeech : List Char := "virtualserver_total_packetloss_speech".toList
def keyPlKeepalive : List Char := "virtualserver_total_packetloss_keepalive".toList
def keyPlControl : List Char := "virtualserver_total_packetloss_control".toList
def keyPlTotal : List Char := "virtualserver_total_packetloss_total".toList

/-- `int(d[key])`: `none` on a missing key (`KeyError`) or a non-numeric
value (`ValueError`); both are caught by `_get_data`'s handler. -/
def fieldInt (d : List (List Char × List Char)) (key : List Char) : Option Int :=
  (dlookup d key).bind parseInt

/-- `float(d[key])`: `none` on a missing key or unparsable value. -/
def fieldFloat (d : List (List Char × List Char)) (key : List Char) : Option Rat :=
  (dlookup d key).bind parsePyFloat

/-- The metrics mapping `_get_data` builds; counts as integers, scaled
timings/ratios as exact rationals. -/
structure MetricsRecord where
  connected_total : Int
  connected_queries : Int
  connected_users : Int
  ping : Rat
  bandwidth_total_sent : Int
  bandwidth_total_received : Int
  bandwidth_filetransfer_sent : Int
  bandwidth_filetransfer_received : Int
  packetloss_speech : Rat
  packetloss_keepalive : Rat
  packetloss_control : Rat
  packetloss_total : Rat
deriving DecidableEq

/-- `_get_data` (source lines 287–331) on an already-received raw
response: build the field dict from the first `"\n\r"`-separated line,
then extract each metric; any missing field or failed coercion raises
inside the `try` block, is caught, and the whole call yields `None`. -/
def get_data (raw : List Char) : Option MetricsRecord :=
  let d := fieldsOf raw
  (fieldInt d keyClientsOnline).bind fun ct =>
  (fieldInt d keyQueryClientsOnline).bind fun cq =>
  (fieldFloat d keyTotalPing).bind fun pg =>
  (fieldInt d keyBwSentTotal).bind fun bs =>
  (fieldInt d keyBwRecvTotal).bind fun br =>
  (fieldInt d keyFtSent).bind fun fs =>
  (fieldInt d keyFtRecv).bind fun fr =>
  (fieldFloat d keyPlSpeech).bind fun ps =>
  (fieldFloat d keyPlKeepalive).bind fun pk =>
  (fieldFloat d keyPlControl).bind fun pc =>
  (fieldFloat d keyPlTotal).bind fun pt =>
  some
    { connected_total := ct
      connected_queries := cq
      connected_users := ct - cq
      ping := pg * 1000
      bandwidth_total_sent := bs
      bandwidth_total_received := br
      bandwidth_filetransfer_sent := fs
      bandwidth_filetransfer_received := fr
      packetloss_speech := ps * 100000
      packetloss_keepalive := pk * 100000
      packetloss_control := pc * 100000
      packetloss_total := pt * 100000 }

/-! ## Configuration validation: `check` (source lines 121–195) -/

/-- The configuration dictionary entries `check` reads; `none` models a
key absent from `ts3.conf` (Python `KeyError`). -/
structure CheckCfg where
  user : Option (List Char)
  passwd : Option (List Char)
  sid : Option (List Char)
  nickname : Option (List Char)
  channelId : Option (List Char)
deriving DecidableEq

/-- The byte pattern searched for in `/proc/<pid>/cmdline`. -/
def ts3serverPat : List Char := "ts3server".toList

/-- The local-process scan: some successfully read `/proc/<pid>/cmdline`
content contains `ts3server` (source lines 173–186; `procCmdlines` stands
for the cmdline contents of the numeric `/proc` entries that could be
opened — an unreadable entry is logged and skipped, so it simply does not
appear in the list). -/
def tsProcessRunning (procCmdlines : List (List Char)) : Bool :=
  procCmdlines.any (fun cmdline => listHasSeq ts3serverPat cmdline)

/-- `check()`: missing or empty `user` fails, missing or empty `pass`
fails; `sid`, `nickname` and `channel_id` only set defaults and never
fail; when the configured host is `localhost` or `127.0.0.1` the result
is the process scan, otherwise `True`. -/
def check (cfg : CheckCfg) (host : List Char) (procCmdlines : List (List Char)) : Bool :=
  match cfg.user with
  | none => false
  | some u =>
    if u = [] then false
    else
      match cfg.passwd with
      | none => false
      | some p =>
        if p = [] then false
        else
          if host = "localhost".toList ∨ host = "127.0.0.1".toList then
            tsProcessRunning procCmdlines
          else true

/-! ## Session protocol: `_send`, `_receive`, `_disconnect`, `_connect`
(source lines 197–285)

The transport is an oracle: `sendOutcomes` gives, for each `sock.send`
attempted on a live socket, whether it succeeds (`true`) or raises
(`false`); `events` gives, for each `select.select` call on a live
socket, what the socket does.  On a dead socket (after the framework's
`SocketService._disconnect`, which closes the socket and drops the
handle — modelled from the spec: "close transport", never raising) every
`sock.send` and every `select.select` raises without consulting the
oracle.

Python exceptions are modelled by the `Res.exn` constructor: a call that
raises (including `RecursionError` when the call-depth fuel runs out —
every model function charges one fuel unit per nested call, and at fuel
`0` the call itself raises) yields `Res.exn` carrying the state at that
point.  `sent` records every command text ever handed to `sock.send`,
live or dead, in order; `timeoutLogged` records that the
`"Socket timed out."` error branch ran. -/

/-- One `select.select` round on a live socket: a chunk of received text
(`chunk []` is the zero-byte read of a closed peer), a 5-second timeout
(`select` returned no readable socket), an exception raised by `select`
itself, or an exception raised by `sock.recv` after `select` reported
readable data.  The first three are handled inside `_receive`; a
`sock.recv` exception propagates to `_receive`'s caller. -/
inductive RecvEvent where
  | chunk : List Char → RecvEvent
  | timeout : RecvEvent
  | selectErr : RecvEvent
  | recvErr : RecvEvent
deriving DecidableEq

/-- Session-and-transport state threaded through the interpreter. -/
structure St where
  alive : Bool
  sendOutcomes : List Bool
  events : List RecvEvent
  sent : List (List Char)
  timeoutLogged : Bool
deriving DecidableEq

/-- Result of a modelled call: normal return with a value, or a Python
exception propagating to the caller. -/
inductive Res (α : Type) where
  | ok : α → St → Res α
  | exn : St → Res α
deriving DecidableEq

/-- `True` exactly when the call raised. -/
def Res.isExn {α : Type} : Res α → Bool
  | Res.ok _ _ => false
  | Res.exn _ => true

/-- The state a call ended in, whether it returned or raised. -/
def resState {α : Type} : Res α → St
  | Res.ok _ st => st
  | Res.exn st => st

/-- The command `_disconnect` sends, `"quit\n"`. -/
def quitCmd : List Char := "quit\n".toList

mutual

/-- `_send(request)` (source lines 228–249).  The guard
`self.request != "".encode()` is always true in the source (`self.request`
is the string `"serverinfo\n"`, and a Python 3 `str` never equals a
`bytes`), so the body always runs: the request text is handed to
`sock.send`; if that raises, the handler calls `self._disconnect()` (an
exception from which propagates) and returns `False`; otherwise `True`.
No caller in the source ever uses the returned boolean. -/
def msend : Nat → List Char → St → Res Bool
  | 0, _, st => Res.exn st
  | n + 1, req, st =>
    if st.alive then
      match st.sendOutcomes with
      | [] => Res.exn st
      | o :: outs =>
        let st1 : St := { st with sendOutcomes := outs, sent := st.sent ++ [req] }
        if o then Res.ok true st1
        else
          match mdisconnect n st1 with
          | Res.ok _ st2 => Res.ok false st2
          | Res.exn st2 => Res.exn st2
    else
      let st1 : St := { st with sent := st.sent ++ [req] }
      match mdisconnect n st1 with
      | Res.ok _ st2 => Res.ok false st2
      | Res.exn st2 => Res.exn st2
termination_by structural n => n

/-- `_disconnect` (source lines 223–226): send `quit`, attempt one
receive, then the framework teardown (socket closed, handle dropped —
the socket is dead afterwards).  An exception raised by the `_send` or
`_receive` call propagates out of `_disconnect` itself. -/
def mdisconnect : Nat → St → Res Unit
  | 0, st => Res.exn st
  | n + 1, st =>
    match msend n quitCmd st with
    | Res.exn st1 => Res.exn st1
    | Res.ok _ st1 =>
      match mreceiveLoop n [] st1 with
      | Res.exn st2 => Res.exn st2
      | Res.ok _ st2 => Res.ok () { st2 with alive := false }
termination_by structural n => n

/-- The `while True` accumulation loop of `_receive` (source lines
251–285), carrying the accumulator `data`.  Each iteration: one
`select.select` on the socket — on a dead socket `select` itself raises,
which the `except` branch handles by calling `_disconnect` (whose own
exception propagates) and breaking with the data so far.  On a live
socket the next oracle event decides the iteration: `selectErr` takes
that same handler; `timeout` logs `"Socket timed out."`, calls
`_disconnect` and breaks with the data so far; `chunk []` (peer closed)
breaks with the data so far; a non-empty `chunk` is appended, the loop
breaks with the full accumulator once `_check_raw_data` matches, and
otherwise continues; `recvErr` (an exception from `sock.recv`) is not
caught and propagates.  An exhausted oracle (`events = []` on a live
socket) is modelled as `Res.exn` and never exercised by any theorem:
the real loop would block in `select` there. -/
def mreceiveLoop : Nat → List Char → St → Res (List Char)
  | 0, _, st => Res.exn st
  | n + 1, acc, st =>
    if st.alive then
      match st.events with
      | [] => Res.exn st
      | ev :: evs =>
        let st1 : St := { st with events := evs }
        match ev with
        | RecvEvent.selectErr =>
          match mdisconnect n st1 with
          | Res.ok _ st2 => Res.ok acc st2
          | Res.exn st2 => Res.exn st2
        | RecvEvent.timeout =>
          match mdisconnect n { st1 with timeoutLogged := true } with
          | Res.ok _ st2 => Res.ok acc st2
          | Res.exn st2 => Res.exn st2
        | RecvEvent.recvErr => Res.exn st1
        | RecvEvent.chunk s =>
          if s = [] then Res.ok acc st1
          else
            let acc2 := acc ++ s
            if check_raw_data acc2 then Res.ok acc2 st1
            else mreceiveLoop n acc2 st1
    else
      match mdisconnect n st with
      | Res.ok _ st2 => Res.ok acc st2
      | Res.exn st2 => Res.exn st2
termination_by structural n => n

end

/-- `_receive()` as called by the source: the accumulator starts empty. -/
def mreceive (n : Nat) (st : St) : Res (List Char) :=
  mreceiveLoop n [] st

/-! ## `_connect` (source lines 197–221) -/

/-- The connection parameters `_connect` interpolates into its commands
(`self.user`, `self.passwd`, `self.sid`, `self.nickname`, the current
`datetime.now()` timestamp string, and the optional `self.channel_id`;
`channelId = none` models a falsy `self.channel_id`, under which the
`whoami`/`clientmove` block is skipped). -/
structure Cfg where
  user : List Char
  passwd : List Char
  sid : List Char
  nickname : List Char
  timestamp : List Char
  channelId : Option (List Char)
deriving DecidableEq

def loginCmd (c : Cfg) : List Char :=
  "login ".toList ++ c.user ++ " ".toList ++ c.passwd ++ "\n".toList

def useCmd (c : Cfg) : List Char :=
  "use sid=".toList ++ c.sid ++ "\n".toList

def clientupdateCmd (c : Cfg) : List Char :=
  "clientupdate client_nickname=".toList ++ c.nickname ++ "_".toList
    ++ c.timestamp ++ "\n".toList

def whoamiCmd : List Char := "whoami\n".toList

def clientmoveCmd (clid ch : List Char) : List Char :=
  "clientmove clid=".toList ++ clid ++ " cid=".toList ++ ch ++ "\n".toList

/-- The literal pattern text before the capture group of
`re.compile("client_id=(\d*)")`. -/
def clientIdPat : List Char := "client_id=".toList

/-- `re.compile("client_id=(\d*)").findall(s)`, fuel-indexed: scan left
to right for non-overlapping matches of `client_id=` followed by a
greedy, possibly empty digit run; each match contributes its captured
digit run and the scan resumes after it.  The fuel `s.length` supplied
by `findClientIds` always suffices, since every step consumes at least
one character. -/
def findClientIdsAux : Nat → List Char → List (List Char)
  | 0, _ => []
  | _, [] => []
  | n + 1, c :: rest =>
    if listStartsWith clientIdPat (c :: rest) then
      let after := rest.drop (clientIdPat.length - 1)
      (after.takeWhile Char.isDigit)
        :: findClientIdsAux n (after.dropWhile Char.isDigit)
    else findClientIdsAux n rest

def findClientIds (s : List Char) : List (List Char) :=
  findClientIdsAux s.length s

/-- The `except` handler of `_connect` (source lines 214–221): call
`self._disconnect()` — an exception from which propagates out of
`_connect` — log the error, and return `None`. -/
def connectHandler (fuel : Nat) (st : St) : Res Unit :=
  match mdisconnect fuel st with
  | Res.ok _ st2 => Res.ok () st2
  | Res.exn st2 => Res.exn st2

/-- `_connect` (source lines 197–221): `super()._connect()` opens a fresh
live transport, then inside `try`: send `login`, receive; send `use`,
receive; send `clientupdate`, receive; if a channel id is configured,
send `whoami`, receive, take match 0 of `client_id=(\d*)` (an empty match
list raises `IndexError`), send `clientmove`, receive.  Any exception
from these steps goes to `connectHandler`.  Note that `msend` returning
`False` is not an exception: the sequence continues after a failed send.
-/
def mconnect (fuel : Nat) (cfg : Cfg) (st0 : St) : Res Unit :=
  let st : St := { st0 with alive := true }
  match msend fuel (loginCmd cfg) st with
  | Res.exn st1 => connectHandler fuel st1
  | Res.ok _ st1 =>
  match mreceiveLoop fuel [] st1 with
  | Res.exn st2 => connectHandler fuel st2
  | Res.ok _ st2 =>
  match msend fuel (useCmd cfg) st2 with
  | Res.exn st3 => connectHandler fuel st3
  | Res.ok _ st3 =>
  match mreceiveLoop fuel [] st3 with
  | Res.exn st4 => connectHandler fuel st4
  | Res.ok _ st4 =>
  match msend fuel (clientupdateCmd cfg) st4 with
  | Res.exn st5 => connectHandler fuel st5
  | Res.ok _ st5 =>
  match mreceiveLoop fuel [] st5 with
  | Res.exn st6 => connectHandler fuel st6
  | Res.ok _ st6 =>
  match cfg.channelId with
  | none => Res.ok () st6
  | some ch =>
    match msend fuel whoamiCmd st6 with
    | Res.exn st7 => connectHandler fuel st7
    | Res.ok _ st7 =>
    match mreceiveLoop fuel [] st7 with
    | Res.exn st8 => connectHandler fuel st8
    | Res.ok resp st8 =>
    match findClientIds resp with
    | [] => connectHandler fuel st8
    | clid :: _ =>
      match msend fuel (clientmoveCmd clid ch) st8 with
      | Res.exn st9 => connectHandler fuel st9
      | Res.ok _ st9 =>
      match mreceiveLoop fuel [] st9 with
      | Res.exn st10 => connectHandler fuel st10
      | Res.ok _ st10 => Res.ok () st10

/-! ## Concrete scenario inputs used by theorems and witnesses -/

/-- The raw response of the specification's `_get_data` scenario. -/
def c4raw : List Char :=
  ("virtualserver_clientsonline=42 virtualserver_queryclientsonline=2 "
    ++ "virtualserver_total_ping=0.05 "
    ++ "connection_bandwidth_sent_last_second_total=1000 "
    ++ "connection_bandwidth_received_last_second_total=2000 "
    ++ "connection_filetransfer_bandwidth_sent=0 "
    ++ "connection_filetransfer_bandwidth_received=0 "
    ++ "virtualserver_total_packetloss_speech=0.001 "
    ++ "virtualserver_total_packetloss_keepalive=0 "
    ++ "virtualserver_total_packetloss_control=0 "
    ++ "virtualserver_total_packetloss_total=0.001\n\rmsg=ok\n\r").toList

/-- The metrics record the scenario claims (`ping` scaled by 1000,
packet-loss ratios scaled by 100000). -/
def c4record : MetricsRecord :=
  { connected_total := 42
    connected_queries := 2
    connected_users := 40
    ping := 50
    bandwidth_total_sent := 1000
    bandwidth_total_received := 2000
    bandwidth_filetransfer_sent := 0
    bandwidth_filetransfer_received := 0
    packetloss_speech := 100
    packetloss_keepalive := 0
    packetloss_control := 0
    packetloss_total := 100 }

/-- The field dictionary `_get_data` builds from `c4raw` (checked against
`fieldsOf` by computation in the proofs below). -/
def c4pairs : List (List Char × List Char) :=
  [(keyClientsOnline, "42".toList), (keyQueryClientsOnline, "2".toList),
   (keyTotalPing, "0.05".toList), (keyBwSentTotal, "1000".toList),
   (keyBwRecvTotal, "2000".toList), (keyFtSent, "0".toList),
   (keyFtRecv, "0".toList), (keyPlSpeech, "0.001".toList),
   (keyPlKeepalive, "0".toList), (keyPlControl, "0".toList),
   (keyPlTotal, "0.001".toList)]

/-- A complete terminator-ended response used in transport scenarios. -/
def okResp : List Char := "error id=0 msg=ok\n\r".toList

/-- Transport state for the timeout scenario: the socket never becomes
readable for the pending receive; the subsequent `quit` of the teardown
succeeds and its response arrives whole. -/
def timeoutSt : St :=
  { alive := true
    sendOutcomes := [true]
    events := [RecvEvent.timeout, RecvEvent.chunk okResp]
    sent := []
    timeoutLogged := false }

/-- Connection parameters for the `_connect` scenarios (no channel id). -/
def cexCfg : Cfg :=
  { user := "u".toList, passwd := "p".toList, sid := "1".toList
    nickname := "nd".toList, timestamp := "T".toList, channelId := none }

/-- Transport oracle for the `_connect` counterexample: the `login` send
succeeds, but its receive times out; the teardown's `quit` send succeeds
and its response arrives whole; afterwards the socket is dead. -/
def cexSt : St :=
  { alive := false
    sendOutcomes := [true, true]
    events := [RecvEvent.timeout, RecvEvent.chunk okResp]
    sent := []
    timeoutLogged := false }

/-- A `whoami` response carrying a client id. -/
def whoResp : List Char := "clid=7 client_id=7 cid=0 msg=ok\n\r".toList

/-- Connection parameters with a configured channel id. -/
def seqCfg : Cfg :=
  { user := "u".toList, passwd := "p".toList, sid := "1".toList
    nickname := "nd".toList, timestamp := "T".toList
    channelId := some ("5".toList) }

/-- Transport oracle for the fully successful `_connect` sequence: five
successful sends, five whole responses, the fourth being the `whoami`
reply. -/
def seqSt : St :=
  { alive := false
    sendOutcomes := [true, true, true, true, true]
    events := [RecvEvent.chunk okResp, RecvEvent.chunk okResp,
      RecvEvent.chunk okResp, RecvEvent.chunk whoResp, RecvEvent.chunk okResp]
    sent := []
    timeoutLogged := false }

/-- Transport oracle for the aborting `_connect` run: the `login` send
succeeds, `sock.recv` raises during its receive, and the handler's
teardown (`quit` send plus one whole response) succeeds. -/
def abortSt : St :=
  { alive := false
    sendOutcomes := [true, true]
    events := [RecvEvent.recvErr, RecvEvent.chunk okResp]
    sent := []
    timeoutLogged := false }

end TS3

namespace TS3

/-! ## Theorems -/

/-- `listEndsWith pat s` holds exactly when `s` is some text followed by
`pat`. -/
theorem listEndsWith_iff (pat s : List Char) :
    listEndsWith pat s = true ↔ ∃ pre, s = pre ++ pat := by
  unfold listEndsWith
  rw [beq_iff_eq]
  constructor
  · intro h
    refine ⟨s.take (s.length - pat.length), ?_⟩
    conv_lhs => rw [← List.take_append_drop (s.length - pat.length) s]
    rw [← h]
  · rintro ⟨pre, rfl⟩
    rw [List.length_append, Nat.add_sub_cancel, List.drop_left]

/-- Claim C2, amended: the loop's completion test accepts the
accumulated text exactly when it ends in `msg=ok` or in
`msg=invalid\schannelID`, each followed by the two-character sequence
line feed then carriage return (`"\n\r"`), not carriage return then line
feed as the claim states. -/
theorem check_raw_data_terminator_characterization (data : List Char) :
    check_raw_data data = true ↔
      (∃ pre, data = pre ++ okTerminator) ∨
      (∃ pre, data = pre ++ invalidChannelTerminator) := by
  unfold check_raw_data
  rw [Bool.or_eq_true, listEndsWith_iff, listEndsWith_iff]

/-- Counterexample to claim C2 as stated: the text `"msg=ok\n\r"` ends in
neither of the two claimed CR-LF terminators, yet `_check_raw_data`
accepts it; conversely the claimed terminator text `"msg=ok\r\n"` is
rejected by `_check_raw_data` although the claim says it completes a
response. -/
theorem terminator_crlf_counterexample :
    check_raw_data ("msg=ok\n\r".toList) = true ∧
      check_raw_data_claimed ("msg=ok\n\r".toList) = false ∧
      check_raw_data ("msg=ok\r\n".toList) = false ∧
      check_raw_data_claimed ("msg=ok\r\n".toList) = true := by decide

/-- Claim C9: an empty configured `user` or `pass` string makes `check()`
return false (the collector is disabled; `check` performs no transport
operation at all — its model takes no transport state). -/
theorem check_empty_credentials_false (cfg : CheckCfg) (host : List Char)
    (procs : List (List Char))
    (h : cfg.user = some [] ∨ cfg.passwd = some []) :
    check cfg host procs = false := by
  unfold check
  rcases h with h | h
  · rw [h]
    simp
  · cases hu : cfg.user with
    | none => rfl
    | some u =>
      rw [h]
      by_cases hue : u = [] <;> simp [hue]

/-- Witness for C9 at a concrete configuration. -/
theorem check_empty_credentials_false_witness :
    check { user := some ("u".toList), passwd := some []
            sid := none, nickname := none, channelId := none }
        ("example.org".toList) [] = false :=
  check_empty_credentials_false _ _ _ (Or.inr rfl)

/-- Claim C10: with non-empty credentials, `check()` equals the
`ts3server` process scan when the host is `localhost` or `127.0.0.1`,
and is `true` for every other host (no process check is performed). -/
theorem check_localhost_process_scan (cfg : CheckCfg) (host : List Char)
    (procs : List (List Char)) (u p : List Char)
    (hu : cfg.user = some u) (hune : u ≠ [])
    (hp : cfg.passwd = some p) (hpne : p ≠ []) :
    check cfg host procs =
      if host = "localhost".toList ∨ host = "127.0.0.1".toList then
        tsProcessRunning procs
      else true := by
  unfold check
  rw [hu, hp]
  simp [hune, hpne]

/-- Witness for C10: valid credentials, host `localhost`, no running
`ts3server` process — `check()` is false. -/
theorem check_localhost_process_scan_witness :
    check { user := some ("u".toList), passwd := some ("p".toList)
            sid := none, nickname := none, channelId := none }
        ("localhost".toList) [] = false := by
  rw [check_localhost_process_scan _ _ _ ("u".toList) ("p".toList)
    rfl (by decide) rfl (by decide)]
  decide

/-- On a dead socket every `_send` and every `_disconnect` call raises,
at every call-depth allowance: `_send`'s handler calls `_disconnect`,
which immediately calls `_send` again, so the mutual recursion never
returns and Python's recursion limit is eventually hit. -/
theorem dead_socket_send_disconnect_exn : ∀ n : Nat,
    (∀ (st : St) (req : List Char), st.alive = false →
      (msend n req st).isExn = true) ∧
    (∀ st : St, st.alive = false → (mdisconnect n st).isExn = true) := by
  intro n
  induction n with
  | zero => exact ⟨fun st req _ => rfl, fun st _ => rfl⟩
  | succ m ih =>
    constructor
    · intro st req h
      have hd := ih.2 { st with alive := false, sent := st.sent ++ [req] } rfl
      unfold msend
      rw [h]
      simp only [Bool.false_eq_true, if_false]
      cases hres : mdisconnect m
          { st with alive := false, sent := st.sent ++ [req] } with
      | ok a st2 => rw [hres] at hd; exact absurd hd (by simp [Res.isExn])
      | exn st2 => rfl
    · intro st h
      have hs := ih.1 st quitCmd h
      unfold mdisconnect
      cases hres : msend m quitCmd st with
      | ok a st2 => rw [hres] at hs; exact absurd hs (by simp [Res.isExn])
      | exn st2 => rfl

/-- Claim C7 (refuted — the code, not the claim, is at fault): on a
session whose socket is dead (never connected, or already torn down by a
previous `_disconnect`), `_disconnect` never completes: for every
call-depth allowance `n` the call ends in an exception, because
`_disconnect` sends `quit`, the failing `sock.send` lands in `_send`'s
handler, which calls `_disconnect` again, without bound — in Python,
`RecursionError` propagates out of `_disconnect`. -/
theorem disconnect_dead_socket_raises (n : Nat) (st : St)
    (h : st.alive = false) : (mdisconnect n st).isExn = true :=
  (dead_socket_send_disconnect_exn n).2 st h

/-- Witness for C7 at a concrete dead-socket state and depth. -/
theorem disconnect_dead_socket_raises_witness :
    (mdisconnect 7 { alive := false, sendOutcomes := [], events := []
                     sent := [], timeoutLogged := false }).isExn = true :=
  disconnect_dead_socket_raises 7 _ rfl

/-- Claim C6, amended: when the socket does not become readable within
the 5-second window, `_receive` logs the timeout, tears the session down
(`_disconnect` sends `quit` and the framework teardown kills the
socket), and then returns the accumulated text — empty here — as a
normal value rather than failing. -/
theorem receive_timeout_returns_partial (n : Nat) (st : St)
    (r : List Char) (evs : List RecvEvent) (outs : List Bool)
    (halive : st.alive = true)
    (hev : st.events = RecvEvent.timeout :: RecvEvent.chunk r :: evs)
    (houts : st.sendOutcomes = true :: outs)
    (hne : r ≠ []) (hterm : check_raw_data r = true) :
    mreceive (n + 3) st =
      Res.ok []
        { alive := false, sendOutcomes := outs, events := evs
          sent := st.sent ++ [quitCmd], timeoutLogged := true } := by
  unfold mreceive
  simp [mreceiveLoop, mdisconnect, msend, halive, hev, houts, hne, hterm]

/-- Witness for C6's amended theorem at the concrete timeout scenario. -/
theorem receive_timeout_returns_partial_witness :
    mreceive 3 timeoutSt =
      Res.ok []
        { alive := false, sendOutcomes := [], events := []
          sent := [quitCmd], timeoutLogged := true } :=
  receive_timeout_returns_partial 0 timeoutSt okResp [] [] rfl rfl rfl
    (by decide) (by decide)

/-- Counterexample to claim C6 as stated: in the very scenario the claim
describes (socket never readable in the wait window), `_receive`
completes with a normal return value — the empty accumulated text — and
does not fail; only the teardown part of the claim holds. -/
theorem receive_timeout_counterexample :
    mreceive 9 timeoutSt =
      Res.ok []
        { alive := false, sendOutcomes := [], events := []
          sent := [quitCmd], timeoutLogged := true } := by decide

/-- Evaluation of `_get_data` on the specification's scenario input
(shared helper: also discharges the hypothesis of the C5 witness). -/
theorem get_data_c4raw_eval : get_data c4raw = some c4record := by
  have hd : fieldsOf c4raw = c4pairs := by decide
  simp only [get_data]
  rw [hd]
  rw [show fieldInt c4pairs keyClientsOnline = some 42 from by decide,
    show fieldInt c4pairs keyQueryClientsOnline = some 2 from by decide,
    show fieldFloat c4pairs keyTotalPing = some (mkRat 5 100) from by decide,
    show fieldInt c4pairs keyBwSentTotal = some 1000 from by decide,
    show fieldInt c4pairs keyBwRecvTotal = some 2000 from by decide,
    show fieldInt c4pairs keyFtSent = some 0 from by decide,
    show fieldInt c4pairs keyFtRecv = some 0 from by decide,
    show fieldFloat c4pairs keyPlSpeech = some (mkRat 1 1000) from by decide,
    show fieldFloat c4pairs keyPlKeepalive = some (mkRat 0 1) from by decide,
    show fieldFloat c4pairs keyPlControl = some (mkRat 0 1) from by decide,
    show fieldFloat c4pairs keyPlTotal = some (mkRat 1 1000) from by decide]
  simp only [Option.some_bind]
  unfold c4record
  simp only [Option.some.injEq, MetricsRecord.mk.injEq]
  norm_num [Rat.mkRat_eq_divInt, Rat.divInt_eq_div]

/-- Claim C4: on the scenario raw response, `_get_data` produces exactly
the claimed record — `connected_total = 42`, `connected_queries = 2`,
`connected_users = 40`, `ping = 50`, `bandwidth_total_sent = 1000`,
`bandwidth_total_received = 2000`, `packetloss_speech = 100`,
`packetloss_total = 100` (and zero for both filetransfer fields and the
keepalive/control loss fields). -/
theorem get_data_scenario : get_data c4raw = some c4record :=
  get_data_c4raw_eval

/-- Claim C5: every record `_get_data` returns satisfies
`connected_users = connected_total − connected_queries`, and
`connected_users` is non-negative whenever the input counts are
consistent. -/
theorem connected_users_difference (raw : List Char) (r : MetricsRecord)
    (h : get_data raw = some r) :
    r.connected_users = r.connected_total - r.connected_queries ∧
      (r.connected_queries ≤ r.connected_total → 0 ≤ r.connected_users) := by
  unfold get_data at h
  simp only [Option.bind_eq_some, Option.some.injEq] at h
  obtain ⟨ct, -, cq, -, pg, -, bs, -, br, -, fs, -, fr, -, ps, -, pk, -,
    pc, -, pt, -, hrec⟩ := h
  subst hrec
  exact ⟨rfl, fun hle => by simpa using Int.sub_nonneg.mpr hle⟩

/-- Witness for C5 at the scenario input. -/
theorem connected_users_difference_witness :
    c4record.connected_users = c4record.connected_total - c4record.connected_queries ∧
      (c4record.connected_queries ≤ c4record.connected_total →
        0 ≤ c4record.connected_users) :=
  connected_users_difference c4raw c4record get_data_c4raw_eval

/-- Claim C8: extraction yields no record when the example required field
`virtualserver_clientsonline` is missing from the first data line or has
a non-numeric value (first conjunct), and in general a record is only
produced when every required field is present and numeric — so a raw
response violating any of them yields no record (second conjunct); the
failure is a logged error inside `_get_data`'s handler, returning `None`
to the host, never an exception (the model is a total function into
`Option`). -/
theorem get_data_missing_field_none :
    (∀ raw : List Char, fieldInt (fieldsOf raw) keyClientsOnline = none →
      get_data raw = none) ∧
    (∀ (raw : List Char) (r : MetricsRecord), get_data raw = some r →
      (∀ k ∈ [keyClientsOnline, keyQueryClientsOnline, keyBwSentTotal,
          keyBwRecvTotal, keyFtSent, keyFtRecv],
        fieldInt (fieldsOf raw) k ≠ none) ∧
      (∀ k ∈ [keyTotalPing, keyPlSpeech, keyPlKeepalive, keyPlControl,
          keyPlTotal],
        fieldFloat (fieldsOf raw) k ≠ none)) := by
  constructor
  · intro raw h
    simp only [get_data]
    rw [h]
    rfl
  · intro raw r h
    unfold get_data at h
    simp only [Option.bind_eq_some, Option.some.injEq] at h
    obtain ⟨ct, h1, cq, h2, pg, h3, bs, h4, br, h5, fs, h6, fr, h7, ps, h8,
      pk, h9, pc, h10, pt, h11, -⟩ := h
    constructor
    · intro k hk
      fin_cases hk <;> simp [h1, h2, h4, h5, h6, h7]
    · intro k hk
      fin_cases hk <;> simp [h3, h8, h9, h10, h11]

/-- Witness for C8: a response whose data line lacks
`virtualserver_clientsonline` yields no record. -/
theorem get_data_missing_field_none_witness :
    get_data ("virtualserver_queryclientsonline=2\n\rmsg=ok\n\r".toList) = none :=
  get_data_missing_field_none.1 _ (by decide)

/-- Accumulator-generalized invariant for the fragmented-delivery
theorem: helper for C1. -/
theorem receive_loop_frag_aux (chunks : List (List Char)) :
    ∀ (fuel : Nat) (acc : List Char) (st : St) (tailEvents : List RecvEvent),
    chunks ≠ [] →
    chunks.length ≤ fuel →
    (∀ c ∈ chunks, c ≠ []) →
    check_raw_data (acc ++ chunks.flatten) = true →
    (∀ k, k < (acc ++ chunks.flatten).length →
      check_raw_data ((acc ++ chunks.flatten).take k) = false) →
    st.alive = true →
    st.events = chunks.map RecvEvent.chunk ++ tailEvents →
    mreceiveLoop fuel acc st =
      Res.ok (acc ++ chunks.flatten) { st with events := tailEvents } := by
  induction chunks with
  | nil => intro _ _ _ _ hne; exact absurd rfl hne
  | cons c cs ih =>
    intro fuel acc st tailEvents _ hfuel hcne hterm hpre halive hev
    have hc : c ≠ [] := hcne c (List.mem_cons_self c cs)
    cases fuel with
    | zero => simp at hfuel
    | succ m =>
      cases cs with
      | nil =>
        simp only [List.flatten_cons, List.flatten_nil,
          List.append_nil] at hterm hpre ⊢
        simp only [List.map_cons, List.map_nil, List.nil_append] at hev
        simp [mreceiveLoop, halive, hev, hc, hterm]
      | cons c2 cs2 =>
        have hc2 : c2 ≠ [] := hcne c2 (by simp)
        have hflat : acc ++ (c :: c2 :: cs2).flatten
            = (acc ++ c) ++ (c2 :: cs2).flatten := by
          simp [List.flatten_cons, List.append_assoc]
        have hlen : (acc ++ c).length
            < (acc ++ (c :: c2 :: cs2).flatten).length := by
          rw [hflat, List.length_append ((acc ++ c)) _]
          have : 0 < (c2 :: cs2).flatten.length := by
            cases hc2e : c2 with
            | nil => exact absurd hc2e hc2
            | cons a as => simp [List.flatten_cons, hc2e]
          omega
        have hstop : check_raw_data (acc ++ c) = false := by
          have h := hpre (acc ++ c).length hlen
          rw [hflat, List.take_left] at h
          exact h
        have hterm2 : check_raw_data ((acc ++ c) ++ (c2 :: cs2).flatten) = true := by
          rw [← hflat]; exact hterm
        have hpre2 : ∀ k, k < ((acc ++ c) ++ (c2 :: cs2).flatten).length →
            check_raw_data (((acc ++ c) ++ (c2 :: cs2).flatten).take k) = false := by
          intro k hk
          rw [← hflat] at hk ⊢
          exact hpre k hk
        have hrec := ih m (acc ++ c)
          { st with events := (c2 :: cs2).map RecvEvent.chunk ++ tailEvents }
          tailEvents (by simp) (by simpa using hfuel) (fun x hx => hcne x (by simp [hx]))
          hterm2 hpre2 (by simpa using halive) rfl
        simp only [List.map_cons, List.cons_append] at hev
        simp only [halive, List.map_cons, List.cons_append, List.flatten_cons,
          List.append_assoc] at hrec
        simp [mreceiveLoop, halive, hev, hc, hstop, hrec]

/-- Claim C1, amended: a terminator-ended response none of whose proper
leading segments already ends in a terminator is reconstructed whole by
`_receive`, identically for every in-order partition into non-empty
chunks (a single whole chunk included), given enough loop fuel; the
events beyond the partition are left unconsumed.  (The amendment — no
proper leading segment of the text may end in a terminator — is forced
by `receive_fragmentation_counterexample`.) -/
theorem receive_reconstructs_fragmented_response (chunks : List (List Char))
    (fuel : Nat) (st : St) (tailEvents : List RecvEvent)
    (hne : chunks ≠ []) (hfuel : chunks.length ≤ fuel)
    (hcne : ∀ c ∈ chunks, c ≠ [])
    (hterm : check_raw_data chunks.flatten = true)
    (hpre : ∀ k, k < chunks.flatten.length →
      check_raw_data (chunks.flatten.take k) = false)
    (halive : st.alive = true)
    (hev : st.events = chunks.map RecvEvent.chunk ++ tailEvents) :
    mreceive fuel st = Res.ok chunks.flatten { st with events := tailEvents } := by
  have h := receive_loop_frag_aux chunks fuel [] st tailEvents hne hfuel hcne
    (by simpa using hterm) (by simpa using hpre) halive hev
  simpa [mreceive] using h

/-- Witness for C1's amended theorem: the response `"msg=ok\n\r"` split
into the two chunks `"msg="` and `"ok\n\r"` is reconstructed whole. -/
theorem receive_reconstructs_fragmented_response_witness :
    mreceive 2
      { alive := true, sendOutcomes := []
        events := [RecvEvent.chunk ("msg=".toList), RecvEvent.chunk ("ok\n\r".toList)]
        sent := [], timeoutLogged := false } =
      Res.ok (["msg=".toList, "ok\n\r".toList].flatten)
        { alive := true, sendOutcomes := [], events := []
          sent := [], timeoutLogged := false } :=
  receive_reconstructs_fragmented_response
    ["msg=".toList, "ok\n\r".toList] 2 _ []
    (by decide) (by decide) (by decide) (by decide) (by decide) rfl (by decide)

/-- Counterexample to claim C1 as stated: the text
`"msg=ok\n\rmsg=ok\n\r"` ends in a recognized terminator, and delivered
as one single chunk `_receive` returns it whole — but delivered as the
two-chunk partition `["msg=ok\n\r", "msg=ok\n\r"]` the loop stops at the
first chunk and returns only half the text, a different reconstruction
for a different partition of the same response text. -/
theorem receive_fragmentation_counterexample :
    mreceive 5
        { alive := true, sendOutcomes := []
          events := [RecvEvent.chunk ("msg=ok\n\rmsg=ok\n\r".toList)]
          sent := [], timeoutLogged := false } =
      Res.ok ("msg=ok\n\rmsg=ok\n\r".toList)
        { alive := true, sendOutcomes := [], events := []
          sent := [], timeoutLogged := false } ∧
    mreceive 5
        { alive := true, sendOutcomes := []
          events := [RecvEvent.chunk ("msg=ok\n\r".toList),
            RecvEvent.chunk ("msg=ok\n\r".toList)]
          sent := [], timeoutLogged := false } =
      Res.ok ("msg=ok\n\r".toList)
        { alive := true, sendOutcomes := []
          events := [RecvEvent.chunk ("msg=ok\n\r".toList)]
          sent := [], timeoutLogged := false } ∧
    ("msg=ok\n\r".toList : List Char) ≠ "msg=ok\n\rmsg=ok\n\r".toList := by
  refine ⟨by decide, by decide, by decide⟩

/-- Claim C3, amended.  First conjunct (the success path): when every
send succeeds and every receive gets one whole terminator-ended
response, `_connect` issues, in this order and each followed by one
receive, `login <user> <pass>`, `use sid=<id>`, the `clientupdate`
command embedding nickname and timestamp, and — only with a channel id
configured — `whoami` (whose response yields the client id as match 0 of
`client_id=(\d*)`; the source pattern is `\d*`, not `\d+` as the claim
says) and `clientmove clid=<id> cid=<channel>`; the session stays up.
Second conjunct (the abort path): an exception escaping a receive step —
here `sock.recv` raising on the `login` response — aborts the remaining
sequence (nothing after `login` but the teardown's `quit` is ever handed
to the socket), tears the transport down, and `_connect` returns
normally.  A *failed send* or a *timed-out receive*, by contrast, does
not stop the sequence — see `connect_continues_after_failed_receive`. -/
theorem connect_command_sequence :
    (∀ (n : Nat) (cfg : Cfg) (ch : List Char) (st0 : St)
      (r1 r2 r3 r4 r5 : List Char) (outs : List Bool)
      (tailEvents : List RecvEvent) (clid : List Char)
      (clrest : List (List Char)),
      cfg.channelId = some ch →
      st0.sendOutcomes = true :: true :: true :: true :: true :: outs →
      st0.events = [RecvEvent.chunk r1, RecvEvent.chunk r2, RecvEvent.chunk r3,
        RecvEvent.chunk r4, RecvEvent.chunk r5] ++ tailEvents →
      r1 ≠ [] → check_raw_data r1 = true →
      r2 ≠ [] → check_raw_data r2 = true →
      r3 ≠ [] → check_raw_data r3 = true →
      r4 ≠ [] → check_raw_data r4 = true →
      r5 ≠ [] → check_raw_data r5 = true →
      findClientIds r4 = clid :: clrest →
      mconnect (n + 1) cfg st0 =
        Res.ok ()
          { alive := true, sendOutcomes := outs, events := tailEvents
            sent := st0.sent ++ [loginCmd cfg, useCmd cfg, clientupdateCmd cfg,
              whoamiCmd, clientmoveCmd clid ch]
            timeoutLogged := st0.timeoutLogged }) ∧
    (∀ (n : Nat) (cfg : Cfg) (st0 : St) (r : List Char) (outs : List Bool)
      (tailEvents : List RecvEvent),
      st0.sendOutcomes = true :: true :: outs →
      st0.events = RecvEvent.recvErr :: RecvEvent.chunk r :: tailEvents →
      r ≠ [] → check_raw_data r = true →
      mconnect (n + 2) cfg st0 =
        Res.ok ()
          { alive := false, sendOutcomes := outs, events := tailEvents
            sent := st0.sent ++ [loginCmd cfg, quitCmd]
            timeoutLogged := st0.timeoutLogged }) := by
  constructor
  · intro n cfg ch st0 r1 r2 r3 r4 r5 outs tailEvents clid clrest
      hch houts hev h1 ht1 h2 ht2 h3 ht3 h4 ht4 h5 ht5 hfind
    simp [mconnect, msend, mreceiveLoop, hch, houts, hev,
      h1, ht1, h2, ht2, h3, ht3, h4, ht4, h5, ht5, hfind]
  · intro n cfg st0 r outs tailEvents houts hev hne hterm
    simp [mconnect, msend, mreceiveLoop, mdisconnect, connectHandler,
      houts, hev, hne, hterm]

/-- Witness for C3's amended theorem: a concrete successful run issuing
all five commands, and a concrete aborting run issuing only `login` and
the teardown's `quit`. -/
theorem connect_command_sequence_witness :
    mconnect 1 seqCfg seqSt =
      Res.ok ()
        { alive := true, sendOutcomes := [], events := []
          sent := [loginCmd seqCfg, useCmd seqCfg, clientupdateCmd seqCfg,
            whoamiCmd, clientmoveCmd ("7".toList) ("5".toList)]
          timeoutLogged := false } ∧
    mconnect 2 seqCfg abortSt =
      Res.ok ()
        { alive := false, sendOutcomes := [], events := []
          sent := [loginCmd seqCfg, quitCmd], timeoutLogged := false } :=
  ⟨connect_command_sequence.1 0 seqCfg ("5".toList) seqSt
      okResp okResp okResp whoResp okResp [] [] ("7".toList) []
      rfl rfl (by decide) (by decide) (by decide) (by decide) (by decide)
      (by decide) (by decide) (by decide) (by decide) (by decide) (by decide)
      (by decide),
    connect_command_sequence.2 0 seqCfg abortSt okResp [] []
      rfl (by decide) (by decide) (by decide)⟩

set_option maxHeartbeats 1600000 in
/-- Counterexample to claim C3 as stated: the claim says a failing
receive stops the remaining steps from being issued; but when the
`login` step's receive merely times out (`_receive` handles the timeout
internally, tears the session down, and returns the empty text),
`_connect` continues and still hands `use sid=1` to the now-dead socket
— and the run then ends in an exception escaping `_connect` (the
unbounded `_disconnect`/`_send` recursion on the dead socket), not in a
clean return to Disconnected. -/
theorem connect_continues_after_failed_receive :
    (mconnect 4 cexCfg cexSt).isExn = true ∧
      useCmd cexCfg ∈ (resState (mconnect 4 cexCfg cexSt)).sent ∧
      (resState (mconnect 4 cexCfg cexSt)).timeoutLogged = true := by
  refine ⟨by decide, by decide, by decide⟩

end TS3
